import Mathlib

/-!
Verification development for the process-orchestration core of
`horde-worker-reGen`: a shallow embedding of
`horde_worker_regen/bridge_data/data_model.py` (the `reGenBridgeData`
configuration model and its validators / side-effecting operations) and
`horde_worker_regen/process_management/worker_entry_points.py` (the spawned
process entry points), together with theorems settling the specification
claims about them.

Python `int` fields are embedded as `Int` (Python integers are unbounded);
Python `float` appears only in the `horde_model_stickiness` bound check and is
embedded as `Rat` (the comparisons involved are exact at the bounds 0 and 1).
Python truthiness of a string is emptiness, of an int is non-zeroness, and of
an `Option` is `some` of a truthy value; each truthiness test in the source is
translated at its use site.
-/

namespace HordeWorkerRegen

/-- One entry of the `custom_models` list: a Python `dict` from which the code
reads the keys `"name"`, `"baseline"` and `"filepath"` via `.get` (absent key
gives `None`; `not model.get(k)` is also true for an empty string). -/
structure CustomModelEntry where
  name : Option String
  baseline : Option String
  filepath : Option String
deriving DecidableEq

/-- The configuration model `reGenBridgeData` from
`bridge_data/data_model.py`, including the fields it inherits from the SDK's
`CombinedHordeBridgeData` that this repository's code reads or writes
(`max_threads`, `queue_size`, `extra_slow_worker`, `models_folder_parent`,
`horde_url`, `max_lora_cache_size`, `dreamer_worker_name`). Private pydantic
attributes (`_loaded_from_env_vars`, `_yaml_loader`) are embedded as ordinary
fields; `_yaml_loader` records only whether the YAML loader has been
instantiated. -/
structure reGenBridgeData where
  disable_terminal_ui : Bool
  safety_on_gpu : Bool
  cycle_process_on_model_change : Bool
  CIVIT_API_TOKEN : Option String
  unload_models_from_vram_often : Bool
  process_timeout : Int
  post_process_timeout : Int
  download_timeout : Int
  preload_timeout : Int
  inference_step_timeout : Int
  minutes_allowed_without_jobs : Int
  horde_model_stickiness : Rat
  high_memory_mode : Bool
  very_high_memory_mode : Bool
  high_performance_mode : Bool
  moderate_performance_mode : Bool
  very_fast_disk_mode : Bool
  post_process_job_overlap : Bool
  capture_kudos_training_data : Bool
  kudos_training_data_file : Option String
  exit_on_unhandled_faults : Bool
  purge_loras_on_download : Bool
  remove_maintenance_on_init : Bool
  load_large_models : Bool
  custom_models : List CustomModelEntry
  limited_console_messages : Bool
  max_threads : Int
  queue_size : Int
  extra_slow_worker : Bool
  models_folder_parent : String
  horde_url : String
  max_lora_cache_size : Int
  dreamer_worker_name : String
  loaded_from_env_vars : Bool
  yaml_loader : Option Unit
deriving DecidableEq

namespace reGenBridgeData

/-- The class-level default of the `process_timeout` field
(`Field(default=300)`), which `validate_performance_modes` reads back via
`self.model_fields["process_timeout"].default`. -/
def default_process_timeout : Int := 300

/-- First block of `validate_performance_modes` (lines 124-128): clamp
`queue_size` to 3 when `max_threads >= 2` and `queue_size > 3`. -/
def clamp_queue (self : reGenBridgeData) : reGenBridgeData :=
  if self.max_threads ≥ 2 ∧ self.queue_size > 3 then
    { self with queue_size := 3 }
  else self

/-- Second block of `validate_performance_modes` (lines 130-155): under
`high_performance_mode`, unconditionally overwrite `process_timeout` with the
field default floor-divided by 3; otherwise under
`moderate_performance_mode`, with the default floor-divided by 2. (The
equality comparison against the default in the source only selects the log
level of the message; the assignment is unconditional inside each branch.) -/
def apply_performance_timeout (self : reGenBridgeData) : reGenBridgeData :=
  if self.high_performance_mode then
    { self with process_timeout := Int.fdiv default_process_timeout 3 }
  else if self.moderate_performance_mode then
    { self with process_timeout := Int.fdiv default_process_timeout 2 }
  else self

/-- Third block of `validate_performance_modes` (lines 157-195): when
`extra_slow_worker` is set, turn off both performance modes and both memory
modes, force `queue_size` to 0 (only when it was positive), `max_threads` to 1
(only when it was above 1) and raise `preload_timeout` to at least 120. Each
assignment in the source is guarded (`if self.f: self.f = ...`) and each guard
reads a field no earlier assignment of the block touched, so the block is the
single simultaneous update below: a guard of the form `if self.f: self.f =
False` is the unconditional write of `False` (writing `False` over `False`
changes nothing), and the three guarded numeric writes become conditional
values. -/
def apply_extra_slow (self : reGenBridgeData) : reGenBridgeData :=
  if self.extra_slow_worker then
    { self with
      high_performance_mode := false
      moderate_performance_mode := false
      high_memory_mode := false
      very_high_memory_mode := false
      queue_size := if self.queue_size > 0 then 0 else self.queue_size
      max_threads := if self.max_threads > 1 then 1 else self.max_threads
      preload_timeout :=
        if self.preload_timeout < 120 then 120 else self.preload_timeout }
  else self

/-- Fourth block of `validate_performance_modes` (lines 197-201): very high
memory mode implies high memory mode. -/
def apply_very_high_memory (self : reGenBridgeData) : reGenBridgeData :=
  if self.very_high_memory_mode ∧ ¬ (self.high_memory_mode = true) then
    { self with high_memory_mode := true }
  else self

/-- Fifth block of `validate_performance_modes` (lines 203-225): under high
memory mode the only mutation is forcing `cycle_process_on_model_change` to
false (the other branches only log advisory warnings). -/
def apply_high_memory (self : reGenBridgeData) : reGenBridgeData :=
  if self.high_memory_mode then
    if self.cycle_process_on_model_change then
      { self with cycle_process_on_model_change := false }
    else self
  else self

/-- `reGenBridgeData.validate_performance_modes`, the `mode="after"` pydantic
model validator (lines 117-227), as the sequential composition of its five
mutation blocks. -/
def validate_performance_modes (self : reGenBridgeData) : reGenBridgeData :=
  apply_high_memory (apply_very_high_memory (apply_extra_slow
    (apply_performance_timeout (clamp_queue self))))

/-- Modelled from the spec: the constant `TOTAL_LORA_DOWNLOAD_TIMEOUT` is
defined in `horde_worker_regen/consts.py`, which is not under `src/`; it only
feeds the default of `download_timeout`, a field no claim constrains, so its
value is fixed arbitrarily here. -/
def TOTAL_LORA_DOWNLOAD_TIMEOUT : Int := 600

/-- The field defaults of `reGenBridgeData`, read off the `Field(default=...)`
declarations in `bridge_data/data_model.py`. The defaults of the fields
inherited from the SDK's `CombinedHordeBridgeData` (from `max_threads` on) are
outside this repository; they are modelled from the SDK declarations and no
claim below depends on them. -/
def defaults : reGenBridgeData where
  disable_terminal_ui := true
  safety_on_gpu := false
  cycle_process_on_model_change := false
  CIVIT_API_TOKEN := none
  unload_models_from_vram_often := true
  process_timeout := 300
  post_process_timeout := 60
  download_timeout := TOTAL_LORA_DOWNLOAD_TIMEOUT + 1
  preload_timeout := 80
  inference_step_timeout := 15
  minutes_allowed_without_jobs := 30
  horde_model_stickiness := 0
  high_memory_mode := true
  very_high_memory_mode := false
  high_performance_mode := true
  moderate_performance_mode := false
  very_fast_disk_mode := false
  post_process_job_overlap := false
  capture_kudos_training_data := false
  kudos_training_data_file := none
  exit_on_unhandled_faults := false
  purge_loras_on_download := false
  remove_maintenance_on_init := false
  load_large_models := true
  custom_models := []
  limited_console_messages := false
  max_threads := 1
  queue_size := 1
  extra_slow_worker := false
  models_folder_parent := ""
  horde_url := ""
  max_lora_cache_size := 10
  dreamer_worker_name := ""
  loaded_from_env_vars := false
  yaml_loader := none

/-- The per-field bound checks declared with `Field(...)` in
`bridge_data/data_model.py`: `post_process_timeout` (`ge=15`),
`preload_timeout` (`ge=15`), `inference_step_timeout` (`ge=15, le=30`),
`minutes_allowed_without_jobs` (`ge=0, lt=60*60`) and
`horde_model_stickiness` (`ge=0.0, le=1.0`). Each violated bound contributes
the offending field's name to the pydantic validation error. -/
def field_constraint_errors (self : reGenBridgeData) : List String :=
  (if self.post_process_timeout < 15 then ["post_process_timeout"] else []) ++
  (if self.preload_timeout < 15 then ["preload_timeout"] else []) ++
  (if self.inference_step_timeout < 15 ∨ self.inference_step_timeout > 30 then
    ["inference_step_timeout"] else []) ++
  (if self.minutes_allowed_without_jobs < 0 ∨
      self.minutes_allowed_without_jobs ≥ 60 * 60 then
    ["minutes_allowed_without_jobs"] else []) ++
  (if self.horde_model_stickiness < 0 ∨ self.horde_model_stickiness > 1 then
    ["horde_model_stickiness"] else [])

/-- Pydantic model construction: the field constraints declared in this file
are checked first, and only if all hold does the `mode="after"` validator
`validate_performance_modes` run. A failed bound raises a validation error
naming the offending fields. -/
def construct (raw : reGenBridgeData) : Except (List String) reGenBridgeData :=
  match field_constraint_errors raw with
  | [] => Except.ok (validate_performance_modes raw)
  | errs => Except.error errs

end reGenBridgeData

/-- The process environment, `os.environ`: a partial map from variable names
to string values. -/
def Env : Type := String → Option String

/-- `os.environ[k] = v`. -/
def setEnv (e : Env) (k v : String) : Env :=
  fun x => if x = k then some v else e x

/-- Python truthiness of `os.getenv(k)` / `os.environ.get(k)`: an unset
variable is `None` (falsy) and an empty string value is also falsy. -/
def envTruthy (e : Env) (k : String) : Bool :=
  match e k with
  | none => false
  | some v => ¬ (v = "")

/-- The record written for one accepted custom model: the source builds
`{"name": n, "baseline": b, "type": "ckpt", "config": {"files": [{"path":
p}]}}`, of which the varying parts are `n`, `b` and `p`. -/
structure CustomModelRecord where
  name : String
  baseline : String
  filepath : String
deriving DecidableEq

/-- Python `dict` insertion keyed by name: overwrite the existing entry for
the key, or append a new one. -/
def dictInsert (d : List (String × CustomModelRecord)) (k : String)
    (v : CustomModelRecord) : List (String × CustomModelRecord) :=
  if d.any (fun p => p.1 = k) then
    d.map (fun p => if p.1 = k then (k, v) else p)
  else d ++ [(k, v)]

/-- Contents of a file written by the operations under study: either the YAML
dump of the configuration model (`save`) or the `custom_models.json` dict
(`prepare_custom_models`). -/
inductive FileContent where
  | configDump (d : reGenBridgeData)
  | customModels (d : List (String × CustomModelRecord))
deriving DecidableEq

/-- The ambient state the side-effecting configuration operations touch: the
process environment, the current working directory and the filesystem. -/
structure World where
  env : Env
  cwd : String
  files : String → Option FileContent

/-- Write a file. -/
def writeFile (fs : String → Option FileContent) (path : String)
    (c : FileContent) : String → Option FileContent :=
  fun x => if x = path then some c else fs x

/-- `os.remove`. -/
def removeFile (fs : String → Option FileContent) (path : String) :
    String → Option FileContent :=
  fun x => if x = path then none else fs x

namespace reGenBridgeData

/-- `reGenBridgeData.load_env_vars` (lines 285-317): copies selected
configuration values into process environment variables, never overwriting an
already-set variable (for `AI_HORDE_URL` the source checks truthiness first
and then `is None`, so an empty-string value also blocks the write). Returns
the configuration together with the updated environment; the source method
assigns no field of `self`. -/
def load_env_vars (self : reGenBridgeData) (env : Env) :
    reGenBridgeData × Env :=
  let env := if ¬ (self.models_folder_parent = "") ∧
      env "AIWORKER_CACHE_HOME" = none then
    setEnv env "AIWORKER_CACHE_HOME" self.models_folder_parent
  else env
  let env := if ¬ (self.horde_url = "") then
    if envTruthy env "AI_HORDE_URL" then env
    else if env "AI_HORDE_URL" = none then
      setEnv env "AI_HORDE_URL" self.horde_url
    else env
  else env
  let env := match self.CIVIT_API_TOKEN with
    | some tok => setEnv env "CIVIT_API_TOKEN" tok
    | none => env
  let env := if ¬ (self.max_lora_cache_size = 0) ∧
      env "AIWORKER_LORA_CACHE_SIZE" = none then
    setEnv env "AIWORKER_LORA_CACHE_SIZE"
      (toString (self.max_lora_cache_size * 1024))
  else env
  let env := if self.load_large_models then
    setEnv env "AI_HORDE_MODEL_META_LARGE_MODELS" "1"
  else env
  (self, env)

/-- The dict built by the loop in `prepare_custom_models` (lines 250-267):
entries missing a truthy `name`, `baseline` or `filepath` are skipped; the
rest are inserted keyed by name. -/
def custom_models_dict (models : List CustomModelEntry) :
    List (String × CustomModelRecord) :=
  models.foldl (fun d m =>
    match m.name with
    | none => d
    | some n =>
      if n = "" then d
      else match m.baseline with
        | none => d
        | some b =>
          if b = "" then d
          else match m.filepath with
            | none => d
            | some p =>
              if p = "" then d
              else dictInsert d n ⟨n, b, p⟩) []

/-- `reGenBridgeData.prepare_custom_models` (lines 242-275): a no-op when
`HORDELIB_CUSTOM_MODELS` is already set truthy; otherwise writes (or removes)
`<cwd>/custom_models.json` according to the accepted custom-model entries and
points `HORDELIB_CUSTOM_MODELS` at that path. Returns the configuration
together with the updated world; the source method assigns no field of
`self`. -/
def prepare_custom_models (self : reGenBridgeData) (w : World) :
    reGenBridgeData × World :=
  if envTruthy w.env "HORDELIB_CUSTOM_MODELS" then (self, w)
  else
    let d := custom_models_dict self.custom_models
    let path := w.cwd ++ "/custom_models.json"
    let files := if d.length > 0 then
      writeFile w.files path (FileContent.customModels d)
    else if (w.files path).isSome then removeFile w.files path
    else w.files
    (self, { env := setEnv w.env "HORDELIB_CUSTOM_MODELS" path,
             cwd := w.cwd, files := files })

/-- `reGenBridgeData.save` (lines 319-329): lazily instantiates the private
YAML loader (the only assignment to `self`, and to a private attribute), then
dumps the model to the given path. -/
def save (self : reGenBridgeData) (w : World) (file_path : String) :
    reGenBridgeData × World :=
  let self := if self.yaml_loader = none then
    { self with yaml_loader := some () }
  else self
  (self, { env := w.env, cwd := w.cwd,
           files := writeFile w.files file_path (FileContent.configDump self) })

/-- Equality of every configuration field of the model — every field of
`reGenBridgeData` except the two private pydantic attributes
(`_loaded_from_env_vars`, `_yaml_loader`). -/
def config_fields_eq (a b : reGenBridgeData) : Prop :=
  a.disable_terminal_ui = b.disable_terminal_ui ∧
  a.safety_on_gpu = b.safety_on_gpu ∧
  a.cycle_process_on_model_change = b.cycle_process_on_model_change ∧
  a.CIVIT_API_TOKEN = b.CIVIT_API_TOKEN ∧
  a.unload_models_from_vram_often = b.unload_models_from_vram_often ∧
  a.process_timeout = b.process_timeout ∧
  a.post_process_timeout = b.post_process_timeout ∧
  a.download_timeout = b.download_timeout ∧
  a.preload_timeout = b.preload_timeout ∧
  a.inference_step_timeout = b.inference_step_timeout ∧
  a.minutes_allowed_without_jobs = b.minutes_allowed_without_jobs ∧
  a.horde_model_stickiness = b.horde_model_stickiness ∧
  a.high_memory_mode = b.high_memory_mode ∧
  a.very_high_memory_mode = b.very_high_memory_mode ∧
  a.high_performance_mode = b.high_performance_mode ∧
  a.moderate_performance_mode = b.moderate_performance_mode ∧
  a.very_fast_disk_mode = b.very_fast_disk_mode ∧
  a.post_process_job_overlap = b.post_process_job_overlap ∧
  a.capture_kudos_training_data = b.capture_kudos_training_data ∧
  a.kudos_training_data_file = b.kudos_training_data_file ∧
  a.exit_on_unhandled_faults = b.exit_on_unhandled_faults ∧
  a.purge_loras_on_download = b.purge_loras_on_download ∧
  a.remove_maintenance_on_init = b.remove_maintenance_on_init ∧
  a.load_large_models = b.load_large_models ∧
  a.custom_models = b.custom_models ∧
  a.limited_console_messages = b.limited_console_messages ∧
  a.max_threads = b.max_threads ∧
  a.queue_size = b.queue_size ∧
  a.extra_slow_worker = b.extra_slow_worker ∧
  a.models_folder_parent = b.models_folder_parent ∧
  a.horde_url = b.horde_url ∧
  a.max_lora_cache_size = b.max_lora_cache_size ∧
  a.dreamer_worker_name = b.dreamer_worker_name

theorem config_fields_eq_refl (a : reGenBridgeData) : config_fields_eq a a := by
  unfold config_fields_eq
  simp

end reGenBridgeData

/-! Entry points (`process_management/worker_entry_points.py`). The
inter-process handles (`ProcessQueue`, `Connection`, `Semaphore`, `Lock`) are
opaque to this module: the entry points only forward them, so each is embedded
as an identifier naming the underlying OS object; two equal identifiers denote
the same shared object. -/

/-- An inter-process message-queue handle. -/
structure ProcessQueue where
  id : Nat
deriving DecidableEq

/-- A duplex pipe-connection handle. -/
structure Connection where
  id : Nat
deriving DecidableEq

/-- A `multiprocessing.synchronize.Semaphore` handle (the shared inference
semaphore). -/
structure Semaphore where
  id : Nat
deriving DecidableEq

/-- A `multiprocessing.synchronize.Lock` handle (the shared disk lock). -/
structure Lock where
  id : Nat
deriving DecidableEq

/-- A fault (uncaught Python exception) raised inside a worker's main loop. -/
structure WorkerFault where
  message : String
deriving DecidableEq

/-- Modelled from the spec: `HordeInferenceProcess`
(`process_management/inference_process.py`, not under `src/`) is an isolated
execution unit constructed with the supervisor-provided channel endpoints and
shared resource handles, which its constructor stores on the instance. -/
structure HordeInferenceProcess where
  process_id : Int
  process_message_queue : ProcessQueue
  pipe_connection : Connection
  inference_semaphore : Semaphore
  disk_lock : Lock
deriving DecidableEq

/-- Modelled from the spec: `HordeSafetyProcess`
(`process_management/safety_process.py`, not under `src/`) is the safety-check
execution unit, constructed with the channel endpoints, the shared disk lock
and the CPU/GPU execution-target flag; it takes no inference-semaphore
handle. -/
structure HordeSafetyProcess where
  process_id : Int
  process_message_queue : ProcessQueue
  pipe_connection : Connection
  disk_lock : Lock
  cpu_only : Bool
deriving DecidableEq

/-- Modelled from the spec: a worker process's `main_loop` (in the process
modules missing from `src/`) runs the job-processing loop until shutdown and
either returns normally or raises an uncaught fault; its behaviour is an
arbitrary function from the constructed process to such an outcome. -/
def MainLoop (π : Type) : Type := π → Except WorkerFault Unit

/-- `with logger.catch(), ...:` wrapping a body: loguru's `logger.catch`
context manager logs and suppresses any exception raised in the body (its
default is not to reraise), so a faulting body is turned into a normal
return. -/
def logger_catch_run (body : Except WorkerFault Unit) : Except WorkerFault Unit :=
  match body with
  | Except.ok _ => Except.ok ()
  | Except.error _ => Except.ok ()

/-- The `HordeInferenceProcess(...)` construction on lines 23-29 of
`worker_entry_points.py`: every argument of `start_inference_process` is
forwarded into the instance. -/
def construct_inference_process (process_id : Int)
    (process_message_queue : ProcessQueue) (pipe_connection : Connection)
    (inference_semaphore : Semaphore) (disk_lock : Lock) :
    HordeInferenceProcess :=
  { process_id := process_id
    process_message_queue := process_message_queue
    pipe_connection := pipe_connection
    inference_semaphore := inference_semaphore
    disk_lock := disk_lock }

/-- The `HordeSafetyProcess(...)` construction on lines 41-47 of
`worker_entry_points.py`: every argument of `start_safety_process` is
forwarded into the instance; `cpu_only` defaults to `true` as in the source
signature. -/
def construct_safety_process (process_id : Int)
    (process_message_queue : ProcessQueue) (pipe_connection : Connection)
    (disk_lock : Lock) (cpu_only : Bool := true) : HordeSafetyProcess :=
  { process_id := process_id
    process_message_queue := process_message_queue
    pipe_connection := pipe_connection
    disk_lock := disk_lock
    cpu_only := cpu_only }

/-- `start_inference_process` (lines 16-31): construct the worker process from
the forwarded arguments (outside any exception guard), then run its main loop
under `logger.catch`. The outcome is what the spawning supervisor observes:
`Except.ok ()` is a normal return, `Except.error f` would be a propagated
exception. -/
def start_inference_process (process_id : Int)
    (process_message_queue : ProcessQueue) (pipe_connection : Connection)
    (inference_semaphore : Semaphore) (disk_lock : Lock)
    (main_loop : MainLoop HordeInferenceProcess) : Except WorkerFault Unit :=
  let worker_process := construct_inference_process process_id
    process_message_queue pipe_connection inference_semaphore disk_lock
  logger_catch_run (main_loop worker_process)

/-- `start_safety_process` (lines 34-49): construct the safety process from
the forwarded arguments, then run its main loop under `logger.catch`. -/
def start_safety_process (process_id : Int)
    (process_message_queue : ProcessQueue) (pipe_connection : Connection)
    (disk_lock : Lock) (main_loop : MainLoop HordeSafetyProcess)
    (cpu_only : Bool := true) : Except WorkerFault Unit :=
  let worker_process := construct_safety_process process_id
    process_message_queue pipe_connection disk_lock cpu_only
  logger_catch_run (main_loop worker_process)

/-! Field-level description of each mutation block of
`validate_performance_modes`: which fields it writes (with the written value)
and that it leaves every other relevant field alone. -/

namespace reGenBridgeData

@[simp]
theorem clamp_queue_queue_size (s : reGenBridgeData) :
    (clamp_queue s).queue_size =
      if s.max_threads ≥ 2 ∧ s.queue_size > 3 then 3 else s.queue_size := by
  unfold clamp_queue; split <;> rfl

@[simp]
theorem clamp_queue_max_threads (s : reGenBridgeData) :
    (clamp_queue s).max_threads = s.max_threads := by
  unfold clamp_queue; split <;> rfl

@[simp]
theorem clamp_queue_preload_timeout (s : reGenBridgeData) :
    (clamp_queue s).preload_timeout = s.preload_timeout := by
  unfold clamp_queue; split <;> rfl

@[simp]
theorem clamp_queue_process_timeout (s : reGenBridgeData) :
    (clamp_queue s).process_timeout = s.process_timeout := by
  unfold clamp_queue; split <;> rfl

@[simp]
theorem clamp_queue_high_performance_mode (s : reGenBridgeData) :
    (clamp_queue s).high_performance_mode = s.high_performance_mode := by
  unfold clamp_queue; split <;> rfl

@[simp]
theorem clamp_queue_moderate_performance_mode (s : reGenBridgeData) :
    (clamp_queue s).moderate_performance_mode = s.moderate_performance_mode := by
  unfold clamp_queue; split <;> rfl

@[simp]
theorem clamp_queue_high_memory_mode (s : reGenBridgeData) :
    (clamp_queue s).high_memory_mode = s.high_memory_mode := by
  unfold clamp_queue; split <;> rfl

@[simp]
theorem clamp_queue_very_high_memory_mode (s : reGenBridgeData) :
    (clamp_queue s).very_high_memory_mode = s.very_high_memory_mode := by
  unfold clamp_queue; split <;> rfl

@[simp]
theorem clamp_queue_extra_slow_worker (s : reGenBridgeData) :
    (clamp_queue s).extra_slow_worker = s.extra_slow_worker := by
  unfold clamp_queue; split <;> rfl

@[simp]
theorem clamp_queue_cycle (s : reGenBridgeData) :
    (clamp_queue s).cycle_process_on_model_change =
      s.cycle_process_on_model_change := by
  unfold clamp_queue; split <;> rfl

@[simp]
theorem apply_performance_timeout_process_timeout (s : reGenBridgeData) :
    (apply_performance_timeout s).process_timeout =
      if s.high_performance_mode = true then Int.fdiv default_process_timeout 3
      else if s.moderate_performance_mode = true then
        Int.fdiv default_process_timeout 2
      else s.process_timeout := by
  unfold apply_performance_timeout; split_ifs <;> rfl

@[simp]
theorem apply_performance_timeout_queue_size (s : reGenBridgeData) :
    (apply_performance_timeout s).queue_size = s.queue_size := by
  unfold apply_performance_timeout; split_ifs <;> rfl

@[simp]
theorem apply_performance_timeout_max_threads (s : reGenBridgeData) :
    (apply_performance_timeout s).max_threads = s.max_threads := by
  unfold apply_performance_timeout; split_ifs <;> rfl

@[simp]
theorem apply_performance_timeout_preload_timeout (s : reGenBridgeData) :
    (apply_performance_timeout s).preload_timeout = s.preload_timeout := by
  unfold apply_performance_timeout; split_ifs <;> rfl

@[simp]
theorem apply_performance_timeout_high_performance_mode (s : reGenBridgeData) :
    (apply_performance_timeout s).high_performance_mode =
      s.high_performance_mode := by
  unfold apply_performance_timeout; split_ifs <;> rfl

@[simp]
theorem apply_performance_timeout_moderate_performance_mode
    (s : reGenBridgeData) :
    (apply_performance_timeout s).moderate_performance_mode =
      s.moderate_performance_mode := by
  unfold apply_performance_timeout; split_ifs <;> rfl

@[simp]
theorem apply_performance_timeout_high_memory_mode (s : reGenBridgeData) :
    (apply_performance_timeout s).high_memory_mode = s.high_memory_mode := by
  unfold apply_performance_timeout; split_ifs <;> rfl

@[simp]
theorem apply_performance_timeout_very_high_memory_mode (s : reGenBridgeData) :
    (apply_performance_timeout s).very_high_memory_mode =
      s.very_high_memory_mode := by
  unfold apply_performance_timeout; split_ifs <;> rfl

@[simp]
theorem apply_performance_timeout_extra_slow_worker (s : reGenBridgeData) :
    (apply_performance_timeout s).extra_slow_worker = s.extra_slow_worker := by
  unfold apply_performance_timeout; split_ifs <;> rfl

@[simp]
theorem apply_performance_timeout_cycle (s : reGenBridgeData) :
    (apply_performance_timeout s).cycle_process_on_model_change =
      s.cycle_process_on_model_change := by
  unfold apply_performance_timeout; split_ifs <;> rfl

@[simp]
theorem apply_extra_slow_high_performance_mode (s : reGenBridgeData) :
    (apply_extra_slow s).high_performance_mode =
      if s.extra_slow_worker = true then false else s.high_performance_mode := by
  simp only [apply_extra_slow]; split_ifs <;> simp_all

@[simp]
theorem apply_extra_slow_moderate_performance_mode (s : reGenBridgeData) :
    (apply_extra_slow s).moderate_performance_mode =
      if s.extra_slow_worker = true then false
      else s.moderate_performance_mode := by
  simp only [apply_extra_slow]; split_ifs <;> simp_all

@[simp]
theorem apply_extra_slow_high_memory_mode (s : reGenBridgeData) :
    (apply_extra_slow s).high_memory_mode =
      if s.extra_slow_worker = true then false else s.high_memory_mode := by
  simp only [apply_extra_slow]; split_ifs <;> simp_all

@[simp]
theorem apply_extra_slow_very_high_memory_mode (s : reGenBridgeData) :
    (apply_extra_slow s).very_high_memory_mode =
      if s.extra_slow_worker = true then false
      else s.very_high_memory_mode := by
  simp only [apply_extra_slow]; split_ifs <;> simp_all

@[simp]
theorem apply_extra_slow_queue_size (s : reGenBridgeData) :
    (apply_extra_slow s).queue_size =
      if s.extra_slow_worker = true ∧ s.queue_size > 0 then 0
      else s.queue_size := by
  simp only [apply_extra_slow]; split_ifs <;> simp_all

@[simp]
theorem apply_extra_slow_max_threads (s : reGenBridgeData) :
    (apply_extra_slow s).max_threads =
      if s.extra_slow_worker = true ∧ s.max_threads > 1 then 1
      else s.max_threads := by
  simp only [apply_extra_slow]; split_ifs <;> simp_all

@[simp]
theorem apply_extra_slow_preload_timeout (s : reGenBridgeData) :
    (apply_extra_slow s).preload_timeout =
      if s.extra_slow_worker = true ∧ s.preload_timeout < 120 then 120
      else s.preload_timeout := by
  simp only [apply_extra_slow]; split_ifs <;> simp_all

@[simp]
theorem apply_extra_slow_process_timeout (s : reGenBridgeData) :
    (apply_extra_slow s).process_timeout = s.process_timeout := by
  simp only [apply_extra_slow]; split_ifs <;> simp_all

@[simp]
theorem apply_extra_slow_extra_slow_worker (s : reGenBridgeData) :
    (apply_extra_slow s).extra_slow_worker = s.extra_slow_worker := by
  simp only [apply_extra_slow]; split_ifs <;> simp_all

@[simp]
theorem apply_extra_slow_cycle (s : reGenBridgeData) :
    (apply_extra_slow s).cycle_process_on_model_change =
      s.cycle_process_on_model_change := by
  simp only [apply_extra_slow]; split_ifs <;> simp_all

@[simp]
theorem apply_very_high_memory_high_memory_mode (s : reGenBridgeData) :
    (apply_very_high_memory s).high_memory_mode =
      if s.very_high_memory_mode = true ∧ ¬ (s.high_memory_mode = true) then
        true
      else s.high_memory_mode := by
  unfold apply_very_high_memory; split_ifs <;> rfl

@[simp]
theorem apply_very_high_memory_queue_size (s : reGenBridgeData) :
    (apply_very_high_memory s).queue_size = s.queue_size := by
  unfold apply_very_high_memory; split_ifs <;> rfl

@[simp]
theorem apply_very_high_memory_max_threads (s : reGenBridgeData) :
    (apply_very_high_memory s).max_threads = s.max_threads := by
  unfold apply_very_high_memory; split_ifs <;> rfl

@[simp]
theorem apply_very_high_memory_preload_timeout (s : reGenBridgeData) :
    (apply_very_high_memory s).preload_timeout = s.preload_timeout := by
  unfold apply_very_high_memory; split_ifs <;> rfl

@[simp]
theorem apply_very_high_memory_process_timeout (s : reGenBridgeData) :
    (apply_very_high_memory s).process_timeout = s.process_timeout := by
  unfold apply_very_high_memory; split_ifs <;> rfl

@[simp]
theorem apply_very_high_memory_high_performance_mode (s : reGenBridgeData) :
    (apply_very_high_memory s).high_performance_mode =
      s.high_performance_mode := by
  unfold apply_very_high_memory; split_ifs <;> rfl

@[simp]
theorem apply_very_high_memory_moderate_performance_mode (s : reGenBridgeData) :
    (apply_very_high_memory s).moderate_performance_mode =
      s.moderate_performance_mode := by
  unfold apply_very_high_memory; split_ifs <;> rfl

@[simp]
theorem apply_very_high_memory_very_high_memory_mode (s : reGenBridgeData) :
    (apply_very_high_memory s).very_high_memory_mode =
      s.very_high_memory_mode := by
  unfold apply_very_high_memory; split_ifs <;> rfl

@[simp]
theorem apply_very_high_memory_extra_slow_worker (s : reGenBridgeData) :
    (apply_very_high_memory s).extra_slow_worker = s.extra_slow_worker := by
  unfold apply_very_high_memory; split_ifs <;> rfl

@[simp]
theorem apply_very_high_memory_cycle (s : reGenBridgeData) :
    (apply_very_high_memory s).cycle_process_on_model_change =
      s.cycle_process_on_model_change := by
  unfold apply_very_high_memory; split_ifs <;> rfl

@[simp]
theorem apply_high_memory_cycle (s : reGenBridgeData) :
    (apply_high_memory s).cycle_process_on_model_change =
      if s.high_memory_mode = true ∧ s.cycle_process_on_model_change = true then
        false
      else s.cycle_process_on_model_change := by
  unfold apply_high_memory; split_ifs <;> simp_all

@[simp]
theorem apply_high_memory_queue_size (s : reGenBridgeData) :
    (apply_high_memory s).queue_size = s.queue_size := by
  unfold apply_high_memory; split_ifs <;> rfl

@[simp]
theorem apply_high_memory_max_threads (s : reGenBridgeData) :
    (apply_high_memory s).max_threads = s.max_threads := by
  unfold apply_high_memory; split_ifs <;> rfl

@[simp]
theorem apply_high_memory_preload_timeout (s : reGenBridgeData) :
    (apply_high_memory s).preload_timeout = s.preload_timeout := by
  unfold apply_high_memory; split_ifs <;> rfl

@[simp]
theorem apply_high_memory_process_timeout (s : reGenBridgeData) :
    (apply_high_memory s).process_timeout = s.process_timeout := by
  unfold apply_high_memory; split_ifs <;> rfl

@[simp]
theorem apply_high_memory_high_performance_mode (s : reGenBridgeData) :
    (apply_high_memory s).high_performance_mode = s.high_performance_mode := by
  unfold apply_high_memory; split_ifs <;> rfl

@[simp]
theorem apply_high_memory_moderate_performance_mode (s : reGenBridgeData) :
    (apply_high_memory s).moderate_performance_mode =
      s.moderate_performance_mode := by
  unfold apply_high_memory; split_ifs <;> rfl

@[simp]
theorem apply_high_memory_high_memory_mode (s : reGenBridgeData) :
    (apply_high_memory s).high_memory_mode = s.high_memory_mode := by
  unfold apply_high_memory; split_ifs <;> rfl

@[simp]
theorem apply_high_memory_very_high_memory_mode (s : reGenBridgeData) :
    (apply_high_memory s).very_high_memory_mode =
      s.very_high_memory_mode := by
  unfold apply_high_memory; split_ifs <;> rfl

@[simp]
theorem apply_high_memory_extra_slow_worker (s : reGenBridgeData) :
    (apply_high_memory s).extra_slow_worker = s.extra_slow_worker := by
  unfold apply_high_memory; split_ifs <;> rfl

/-- The post-state invariant established by `validate_performance_modes`: the
queue clamp, the performance-mode timeouts, the extra-slow-worker
consequences, very-high-memory implying high-memory, and high-memory having
turned off process cycling. -/
def Validated (s : reGenBridgeData) : Prop :=
  (s.max_threads ≥ 2 → s.queue_size ≤ 3) ∧
  (s.high_performance_mode = true →
    s.process_timeout = Int.fdiv default_process_timeout 3) ∧
  (s.high_performance_mode = false → s.moderate_performance_mode = true →
    s.process_timeout = Int.fdiv default_process_timeout 2) ∧
  (s.extra_slow_worker = true →
    s.high_performance_mode = false ∧ s.moderate_performance_mode = false ∧
    s.high_memory_mode = false ∧ s.very_high_memory_mode = false ∧
    s.queue_size ≤ 0 ∧ s.max_threads ≤ 1 ∧ s.preload_timeout ≥ 120) ∧
  (s.very_high_memory_mode = true → s.high_memory_mode = true) ∧
  (s.high_memory_mode = true → s.cycle_process_on_model_change = false)

theorem validate_queue_clamped (s : reGenBridgeData)
    (h : (validate_performance_modes s).max_threads ≥ 2) :
    (validate_performance_modes s).queue_size ≤ 3 := by
  simp only [validate_performance_modes] at *
  simp at h ⊢
  split_ifs at h ⊢ <;> simp_all

theorem validate_high_timeout (s : reGenBridgeData)
    (h : (validate_performance_modes s).high_performance_mode = true) :
    (validate_performance_modes s).process_timeout =
      Int.fdiv default_process_timeout 3 := by
  simp only [validate_performance_modes] at *
  simp at h ⊢
  split_ifs at h ⊢ <;> simp_all

theorem validate_moderate_timeout (s : reGenBridgeData)
    (h : (validate_performance_modes s).high_performance_mode = false)
    (h' : (validate_performance_modes s).moderate_performance_mode = true) :
    (validate_performance_modes s).process_timeout =
      Int.fdiv default_process_timeout 2 := by
  simp only [validate_performance_modes] at *
  simp at h h' ⊢
  split_ifs at h h' ⊢ <;> simp_all

theorem validate_extra_slow_consequences (s : reGenBridgeData)
    (h : (validate_performance_modes s).extra_slow_worker = true) :
    (validate_performance_modes s).high_performance_mode = false ∧
    (validate_performance_modes s).moderate_performance_mode = false ∧
    (validate_performance_modes s).high_memory_mode = false ∧
    (validate_performance_modes s).very_high_memory_mode = false ∧
    (validate_performance_modes s).queue_size ≤ 0 ∧
    (validate_performance_modes s).max_threads ≤ 1 ∧
    (validate_performance_modes s).preload_timeout ≥ 120 := by
  simp only [validate_performance_modes] at *
  simp at h ⊢
  split_ifs <;> simp_all

theorem validate_vhm_implies_hm (s : reGenBridgeData)
    (h : (validate_performance_modes s).very_high_memory_mode = true) :
    (validate_performance_modes s).high_memory_mode = true := by
  unfold validate_performance_modes at *
  generalize ht : apply_extra_slow (apply_performance_timeout (clamp_queue s))
    = t at *
  simp only [apply_high_memory_very_high_memory_mode,
    apply_very_high_memory_very_high_memory_mode] at h
  simp only [apply_high_memory_high_memory_mode,
    apply_very_high_memory_high_memory_mode]
  split_ifs <;> simp_all

theorem validate_hm_no_cycle (s : reGenBridgeData)
    (h : (validate_performance_modes s).high_memory_mode = true) :
    (validate_performance_modes s).cycle_process_on_model_change = false := by
  unfold validate_performance_modes at *
  generalize ht : apply_very_high_memory (apply_extra_slow
    (apply_performance_timeout (clamp_queue s))) = t at *
  simp only [apply_high_memory_high_memory_mode] at h
  simp only [apply_high_memory_cycle]
  split_ifs <;> simp_all

/-- Every output of `validate_performance_modes` satisfies `Validated`. -/
theorem validated_validate (s : reGenBridgeData) :
    Validated (validate_performance_modes s) :=
  ⟨validate_queue_clamped s, validate_high_timeout s,
   validate_moderate_timeout s, validate_extra_slow_consequences s,
   validate_vhm_implies_hm s, validate_hm_no_cycle s⟩

theorem clamp_queue_eq_self (s : reGenBridgeData)
    (h : s.max_threads ≥ 2 → s.queue_size ≤ 3) : clamp_queue s = s := by
  unfold clamp_queue
  rw [if_neg]
  intro hc
  have := h hc.1
  omega

theorem apply_performance_timeout_eq_self (s : reGenBridgeData)
    (h2 : s.high_performance_mode = true →
      s.process_timeout = Int.fdiv default_process_timeout 3)
    (h3 : s.high_performance_mode = false →
      s.moderate_performance_mode = true →
      s.process_timeout = Int.fdiv default_process_timeout 2) :
    apply_performance_timeout s = s := by
  unfold apply_performance_timeout
  split_ifs with hh hm
  · rw [← h2 hh]
  · have hf : s.high_performance_mode = false := by
      revert hh; cases s.high_performance_mode <;> simp
    rw [← h3 hf hm]
  · rfl

theorem apply_extra_slow_eq_self (s : reGenBridgeData)
    (h4 : s.extra_slow_worker = true →
      s.high_performance_mode = false ∧ s.moderate_performance_mode = false ∧
      s.high_memory_mode = false ∧ s.very_high_memory_mode = false ∧
      s.queue_size ≤ 0 ∧ s.max_threads ≤ 1 ∧ s.preload_timeout ≥ 120) :
    apply_extra_slow s = s := by
  unfold apply_extra_slow
  by_cases he : s.extra_slow_worker = true
  · rw [if_pos he]
    obtain ⟨e1, e2, e3, e4, e5, e6, e7⟩ := h4 he
    have q1 : (if s.queue_size > 0 then (0 : Int) else s.queue_size) =
        s.queue_size := by rw [if_neg]; omega
    have q2 : (if s.max_threads > 1 then (1 : Int) else s.max_threads) =
        s.max_threads := by rw [if_neg]; omega
    have q3 : (if s.preload_timeout < 120 then (120 : Int)
        else s.preload_timeout) = s.preload_timeout := by rw [if_neg]; omega
    rw [q1, q2, q3]
    cases s
    simp_all
  · rw [if_neg he]

theorem apply_very_high_memory_eq_self (s : reGenBridgeData)
    (h5 : s.very_high_memory_mode = true → s.high_memory_mode = true) :
    apply_very_high_memory s = s := by
  unfold apply_very_high_memory
  rw [if_neg]
  intro hc
  exact hc.2 (h5 hc.1)

theorem apply_high_memory_eq_self (s : reGenBridgeData)
    (h6 : s.high_memory_mode = true →
      s.cycle_process_on_model_change = false) :
    apply_high_memory s = s := by
  unfold apply_high_memory
  split_ifs with hh hc
  · rw [h6 hh] at hc; exact absurd hc (by simp)
  · rfl
  · rfl

/-- `validate_performance_modes` is the identity on any state satisfying
`Validated`. -/
theorem validate_eq_self (s : reGenBridgeData) (h : Validated s) :
    validate_performance_modes s = s := by
  obtain ⟨h1, h2, h3, h4, h5, h6⟩ := h
  unfold validate_performance_modes
  rw [clamp_queue_eq_self s h1, apply_performance_timeout_eq_self s h2 h3,
    apply_extra_slow_eq_self s h4, apply_very_high_memory_eq_self s h5,
    apply_high_memory_eq_self s h6]

theorem mem_field_constraint_errors_inference_step (raw : reGenBridgeData) :
    "inference_step_timeout" ∈ field_constraint_errors raw ↔
      raw.inference_step_timeout < 15 ∨ raw.inference_step_timeout > 30 := by
  unfold field_constraint_errors
  split_ifs <;> simp_all

theorem mem_field_constraint_errors_preload (raw : reGenBridgeData) :
    "preload_timeout" ∈ field_constraint_errors raw ↔
      raw.preload_timeout < 15 := by
  unfold field_constraint_errors
  split_ifs <;> simp_all

theorem mem_field_constraint_errors_post_process (raw : reGenBridgeData) :
    "post_process_timeout" ∈ field_constraint_errors raw ↔
      raw.post_process_timeout < 15 := by
  unfold field_constraint_errors
  split_ifs <;> simp_all

theorem construct_error_eq (raw : reGenBridgeData) (errs : List String)
    (h : construct raw = Except.error errs) :
    errs = field_constraint_errors raw := by
  unfold construct at h
  cases hfe : field_constraint_errors raw <;> simp [hfe] at h
  simp_all

theorem construct_error_of_mem (raw : reGenBridgeData) (name : String)
    (h : name ∈ field_constraint_errors raw) :
    construct raw = Except.error (field_constraint_errors raw) := by
  unfold construct
  cases hfe : field_constraint_errors raw
  · rw [hfe] at h; cases h
  · rfl

end reGenBridgeData

/-! Concrete configurations used by the witnesses below. -/

/-- The spec's boundary scenario: queue depth 3, max worker threads 2,
everything else default. -/
def cfg_boundary : reGenBridgeData :=
  { reGenBridgeData.defaults with max_threads := 2, queue_size := 3 }

/-- High performance mode with a user-supplied `process_timeout`. -/
def cfg_high_perf : reGenBridgeData :=
  { reGenBridgeData.defaults with process_timeout := 9999 }

/-- Moderate performance mode (high off) with a user-supplied
`process_timeout`. -/
def cfg_moderate : reGenBridgeData :=
  { reGenBridgeData.defaults with
      high_performance_mode := false
      moderate_performance_mode := true
      process_timeout := 7 }

/-- An extra-slow worker with every field the extra-slow block rewrites set to
a value it must change. -/
def cfg_extra_slow : reGenBridgeData :=
  { reGenBridgeData.defaults with
      extra_slow_worker := true
      moderate_performance_mode := true
      very_high_memory_mode := true
      max_threads := 4
      queue_size := 5
      preload_timeout := 80 }

/-- A configuration violating the `inference_step_timeout` lower bound. -/
def cfg_bad_step : reGenBridgeData :=
  { reGenBridgeData.defaults with inference_step_timeout := 10 }

/-- A world with an empty environment and empty filesystem. -/
def emptyWorld : World :=
  { env := fun _ => none, cwd := "/w", files := fun _ => none }

/-- C1: for every configuration with `max_threads >= 2` on input, validation
leaves `queue_size` at most 3; and in the spec's boundary scenario
(`max_threads = 2`, `queue_size = 3`, the extra-slow-worker flag off as in the
all-default scenario), `queue_size` comes out exactly 3 — admitted unchanged,
neither exceeded nor reduced. -/
theorem claim_C1_queue_clamp_boundary :
    (∀ s : reGenBridgeData, s.max_threads ≥ 2 →
      (s.validate_performance_modes).queue_size ≤ 3) ∧
    (∀ s : reGenBridgeData, s.max_threads = 2 → s.queue_size = 3 →
      s.extra_slow_worker = false →
      (s.validate_performance_modes).queue_size = 3) := by
  constructor
  · intro s h
    simp only [reGenBridgeData.validate_performance_modes]
    simp
    split_ifs <;> omega
  · intro s h1 h2 h3
    simp only [reGenBridgeData.validate_performance_modes]
    simp [h3]
    omega

/-- Witness for C1 at the boundary scenario configuration. -/
theorem claim_C1_queue_clamp_boundary_witness :
    cfg_boundary.max_threads = 2 ∧ cfg_boundary.queue_size = 3 ∧
    cfg_boundary.extra_slow_worker = false ∧
    (cfg_boundary.validate_performance_modes).queue_size ≤ 3 ∧
    (cfg_boundary.validate_performance_modes).queue_size = 3 :=
  ⟨by decide, by decide, by decide,
   claim_C1_queue_clamp_boundary.1 cfg_boundary (by decide),
   claim_C1_queue_clamp_boundary.2 cfg_boundary (by decide) (by decide)
     (by decide)⟩

/-- C8: with high performance mode on (and the extra-slow flag off),
validation overwrites any user-supplied `process_timeout` with exactly 100 =
300 fdiv 3; with moderate performance mode on and high off, with exactly
150 = 300 fdiv 2. -/
theorem claim_C8_performance_timeouts :
    (∀ s : reGenBridgeData, s.high_performance_mode = true →
      s.extra_slow_worker = false →
      (s.validate_performance_modes).process_timeout = 100) ∧
    (∀ s : reGenBridgeData, s.moderate_performance_mode = true →
      s.high_performance_mode = false →
      (s.validate_performance_modes).process_timeout = 150) := by
  constructor
  · intro s h1 h2
    simp only [reGenBridgeData.validate_performance_modes]
    simp [h1, h2]
    decide
  · intro s h1 h2
    simp only [reGenBridgeData.validate_performance_modes]
    simp [h1, h2]
    decide

/-- Witness for C8: user-supplied `process_timeout` values 9999 and 7 are both
silently discarded. -/
theorem claim_C8_performance_timeouts_witness :
    cfg_high_perf.high_performance_mode = true ∧
    cfg_high_perf.extra_slow_worker = false ∧
    (cfg_high_perf.validate_performance_modes).process_timeout = 100 ∧
    cfg_moderate.moderate_performance_mode = true ∧
    cfg_moderate.high_performance_mode = false ∧
    (cfg_moderate.validate_performance_modes).process_timeout = 150 :=
  ⟨by decide, by decide,
   claim_C8_performance_timeouts.1 cfg_high_perf (by decide) (by decide),
   by decide, by decide,
   claim_C8_performance_timeouts.2 cfg_moderate (by decide) (by decide)⟩

/-- C9: the settings validator is idempotent — applying
`validate_performance_modes` to its own output changes no field. -/
theorem claim_C9_validator_idempotent (s : reGenBridgeData) :
    (s.validate_performance_modes).validate_performance_modes =
      s.validate_performance_modes :=
  reGenBridgeData.validate_eq_self _ (reGenBridgeData.validated_validate s)

/-- C10: an extra-slow worker comes out of validation with both performance
modes and both memory modes off, `queue_size = 0`, `max_threads = 1` and
`preload_timeout >= 120`. The two arithmetic hypotheses are the SDK-side
field bounds (`max_threads >= 1`, `queue_size >= 0` from
`CombinedHordeBridgeData`, outside this repository) under which every real
input configuration is admitted. -/
theorem claim_C10_extra_slow_invariants (s : reGenBridgeData)
    (h : s.extra_slow_worker = true) (hmt : s.max_threads ≥ 1)
    (hq : s.queue_size ≥ 0) :
    (s.validate_performance_modes).high_performance_mode = false ∧
    (s.validate_performance_modes).moderate_performance_mode = false ∧
    (s.validate_performance_modes).high_memory_mode = false ∧
    (s.validate_performance_modes).very_high_memory_mode = false ∧
    (s.validate_performance_modes).queue_size = 0 ∧
    (s.validate_performance_modes).max_threads = 1 ∧
    (s.validate_performance_modes).preload_timeout ≥ 120 := by
  simp only [reGenBridgeData.validate_performance_modes]
  simp [h]
  refine ⟨?_, ?_, ?_⟩ <;> omega

/-- Witness for C10 at a concrete extra-slow configuration. -/
theorem claim_C10_extra_slow_invariants_witness :
    cfg_extra_slow.extra_slow_worker = true ∧ cfg_extra_slow.max_threads ≥ 1 ∧
    cfg_extra_slow.queue_size ≥ 0 ∧
    ((cfg_extra_slow.validate_performance_modes).high_performance_mode = false ∧
     (cfg_extra_slow.validate_performance_modes).moderate_performance_mode
       = false ∧
     (cfg_extra_slow.validate_performance_modes).high_memory_mode = false ∧
     (cfg_extra_slow.validate_performance_modes).very_high_memory_mode
       = false ∧
     (cfg_extra_slow.validate_performance_modes).queue_size = 0 ∧
     (cfg_extra_slow.validate_performance_modes).max_threads = 1 ∧
     (cfg_extra_slow.validate_performance_modes).preload_timeout ≥ 120) :=
  ⟨by decide, by decide, by decide,
   claim_C10_extra_slow_invariants cfg_extra_slow (by decide) (by decide)
     (by decide)⟩

/-- C6: the resolved settings carry the per-phase timeout fields
(`preload_timeout`, `inference_step_timeout`, `post_process_timeout`,
`process_timeout`), and construction fails with a validation error whenever
`inference_step_timeout` is below 15 or above 30, `preload_timeout` is below
15, or `post_process_timeout` is below 15; when all three bounds hold, any
construction failure is on account of other fields, never these three. -/
theorem claim_C6_timeout_field_bounds (raw : reGenBridgeData) :
    ((raw.inference_step_timeout < 15 ∨ raw.inference_step_timeout > 30 ∨
      raw.preload_timeout < 15 ∨ raw.post_process_timeout < 15) →
      ∃ errs, reGenBridgeData.construct raw = Except.error errs ∧
        ("inference_step_timeout" ∈ errs ∨ "preload_timeout" ∈ errs ∨
         "post_process_timeout" ∈ errs)) ∧
    ((raw.inference_step_timeout ≥ 15 ∧ raw.inference_step_timeout ≤ 30 ∧
      raw.preload_timeout ≥ 15 ∧ raw.post_process_timeout ≥ 15) →
      ∀ errs, reGenBridgeData.construct raw = Except.error errs →
        "inference_step_timeout" ∉ errs ∧ "preload_timeout" ∉ errs ∧
        "post_process_timeout" ∉ errs) := by
  constructor
  · intro hviol
    refine ⟨reGenBridgeData.field_constraint_errors raw, ?_, ?_⟩
    · rcases hviol with h | h | h | h
      · exact reGenBridgeData.construct_error_of_mem raw "inference_step_timeout"
          ((reGenBridgeData.mem_field_constraint_errors_inference_step raw).2
            (Or.inl h))
      · exact reGenBridgeData.construct_error_of_mem raw "inference_step_timeout"
          ((reGenBridgeData.mem_field_constraint_errors_inference_step raw).2
            (Or.inr h))
      · exact reGenBridgeData.construct_error_of_mem raw "preload_timeout"
          ((reGenBridgeData.mem_field_constraint_errors_preload raw).2 h)
      · exact reGenBridgeData.construct_error_of_mem raw "post_process_timeout"
          ((reGenBridgeData.mem_field_constraint_errors_post_process raw).2 h)
    · rcases hviol with h | h | h | h
      · exact Or.inl
          ((reGenBridgeData.mem_field_constraint_errors_inference_step raw).2
            (Or.inl h))
      · exact Or.inl
          ((reGenBridgeData.mem_field_constraint_errors_inference_step raw).2
            (Or.inr h))
      · exact Or.inr (Or.inl
          ((reGenBridgeData.mem_field_constraint_errors_preload raw).2 h))
      · exact Or.inr (Or.inr
          ((reGenBridgeData.mem_field_constraint_errors_post_process raw).2 h))
  · intro hok errs herr
    obtain ⟨b1, b2, b3, b4⟩ := hok
    rw [reGenBridgeData.construct_error_eq raw errs herr]
    refine ⟨?_, ?_, ?_⟩
    · rw [reGenBridgeData.mem_field_constraint_errors_inference_step raw]
      omega
    · rw [reGenBridgeData.mem_field_constraint_errors_preload raw]
      omega
    · rw [reGenBridgeData.mem_field_constraint_errors_post_process raw]
      omega

/-- Witness for C6: a configuration with `inference_step_timeout = 10` is
rejected with an error naming a timeout field. -/
theorem claim_C6_timeout_field_bounds_witness :
    (cfg_bad_step.inference_step_timeout < 15 ∨
     cfg_bad_step.inference_step_timeout > 30 ∨
     cfg_bad_step.preload_timeout < 15 ∨
     cfg_bad_step.post_process_timeout < 15) ∧
    (∃ errs, reGenBridgeData.construct cfg_bad_step = Except.error errs ∧
      ("inference_step_timeout" ∈ errs ∨ "preload_timeout" ∈ errs ∨
       "post_process_timeout" ∈ errs)) :=
  ⟨by decide, (claim_C6_timeout_field_bounds cfg_bad_step).1 (by decide)⟩

/-- C7: the fatal-vs-recoverable fault policy flag
`exit_on_unhandled_faults` defaults to `False`, before and after the model
validator runs on the all-default configuration: by default unhandled worker
faults are treated as recoverable. -/
theorem claim_C7_fault_policy_default :
    reGenBridgeData.defaults.exit_on_unhandled_faults = false ∧
    (reGenBridgeData.defaults.validate_performance_modes).exit_on_unhandled_faults
      = false := by
  constructor
  · rfl
  · decide

/-- C5: `load_env_vars`, `prepare_custom_models` and `save` change no
configuration field of the settings value — their effects are confined to the
process environment and the filesystem (`save` touches only the private
`_yaml_loader` attribute). -/
theorem claim_C5_settings_operations_frame (s : reGenBridgeData) (env : Env)
    (w w' : World) (path : String) :
    reGenBridgeData.config_fields_eq (s.load_env_vars env).1 s ∧
    reGenBridgeData.config_fields_eq (s.prepare_custom_models w).1 s ∧
    reGenBridgeData.config_fields_eq (s.save w' path).1 s := by
  refine ⟨?_, ?_, ?_⟩
  · exact reGenBridgeData.config_fields_eq_refl s
  · simp only [reGenBridgeData.prepare_custom_models]
    split_ifs <;> exact reGenBridgeData.config_fields_eq_refl s
  · simp only [reGenBridgeData.save]
    split_ifs <;> exact reGenBridgeData.config_fields_eq_refl s

/-- C2: whatever the main loop of an inference or safety worker does — return
normally or raise any fault — the entry points `start_inference_process` and
`start_safety_process` return normally: no exception of the main loop
propagates to the spawning supervisor. -/
theorem claim_C2_entry_points_isolate_faults (pid pid' : Int)
    (q q' : ProcessQueue) (pipe pipe' : Connection) (sem : Semaphore)
    (lock lock' : Lock) (loopI : MainLoop HordeInferenceProcess)
    (loopS : MainLoop HordeSafetyProcess) (cpu : Bool) :
    start_inference_process pid q pipe sem lock loopI = Except.ok () ∧
    start_safety_process pid' q' pipe' lock' loopS cpu = Except.ok () := by
  constructor
  · show logger_catch_run
      (loopI (construct_inference_process pid q pipe sem lock)) = Except.ok ()
    unfold logger_catch_run
    cases loopI (construct_inference_process pid q pipe sem lock) <;> rfl
  · show logger_catch_run
      (loopS (construct_safety_process pid' q' pipe' lock' cpu)) = Except.ok ()
    unfold logger_catch_run
    cases loopS (construct_safety_process pid' q' pipe' lock' cpu) <;> rfl

/-- C3: an inference worker process is constructed with both the shared
inference semaphore and the shared disk lock; a safety worker process is
constructed with the disk lock only — its constructor takes no
inference-semaphore argument (`construct_safety_process` has no `Semaphore`
parameter, and `HordeSafetyProcess` has no semaphore field), and when the
supervisor passes the same disk lock to both entry points, both constructed
processes hold that same lock. -/
theorem claim_C3_resource_handle_wiring (pid pid' : Int)
    (q q' : ProcessQueue) (pipe pipe' : Connection) (sem : Semaphore)
    (lock : Lock) (cpu : Bool) :
    (construct_inference_process pid q pipe sem lock).inference_semaphore
      = sem ∧
    (construct_inference_process pid q pipe sem lock).disk_lock = lock ∧
    (construct_safety_process pid' q' pipe' lock cpu).disk_lock = lock ∧
    (construct_safety_process pid' q' pipe' lock cpu).disk_lock
      = (construct_inference_process pid q pipe sem lock).disk_lock :=
  ⟨rfl, rfl, rfl, rfl⟩

/-- C4: `start_safety_process` forwards its `cpu_only` parameter into the
constructed safety process, the parameter defaults to `True`, and the settings
model's `safety_on_gpu` flag defaults to `False` — so under all-default
configuration the safety check runs on the CPU-only path. -/
theorem claim_C4_safety_execution_target :
    (∀ (pid : Int) (q : ProcessQueue) (pipe : Connection) (lock : Lock)
      (cpu : Bool),
      (construct_safety_process pid q pipe lock cpu).cpu_only = cpu) ∧
    (∀ (pid : Int) (q : ProcessQueue) (pipe : Connection) (lock : Lock),
      (construct_safety_process pid q pipe lock).cpu_only = true) ∧
    reGenBridgeData.defaults.safety_on_gpu = false ∧
    (reGenBridgeData.defaults.validate_performance_modes).safety_on_gpu
      = false := by
  refine ⟨fun _ _ _ _ _ => rfl, fun _ _ _ _ => rfl, rfl, ?_⟩
  decide

end HordeWorkerRegen
